import Mathlib

/-!
Verification of the PersonalFinances repository against its specification.

The Python services are shallowly embedded: `decimal.Decimal` amounts and
`float` scores become `ℚ`, database sessions become explicit record
environments whose query step may fail, and a raised Python exception becomes
`Except.error`.  Every definition is translated from the corresponding
function in `src/services/duplicate_detector.py`,
`src/services/pdf_processor.py` or `src/services/statement_parser.py`;
f-string message formatting is elided (messages are kept as the constant
part of the source text, which no claim depends on).
-/

namespace PF

/-- Calendar date as the services use it (`datetime.date`): year, month, day. -/
structure SDate where
  year : Nat
  month : Nat
  day : Nat
deriving DecidableEq, Repr

/-- A raised Python exception, as relevant to these services. -/
inductive PyErr where
  | typeError
  | fileNotFound
  | db (msg : String)
deriving DecidableEq, Repr

/-! ## Duplicate detector: data model (`duplicate_detector.py`) -/

/-- Row of `PortfolioBalanceModel` as read by the duplicate detector. -/
structure PortfolioBalance where
  id : Nat
  account_id : Nat
  balance_date : SDate
  balance_amount : ℚ
  data_source : String
  notes : Option String
  created_at : Option String
  confidence_score : Option ℚ
deriving DecidableEq, Repr

/-- Row of `BankBalanceModel` as read by the duplicate detector. -/
structure BankBalance where
  id : Nat
  account_name : String
  statement_month : String
  ending_balance : ℚ
  statement_date : SDate
  data_source : String
  confidence_score : Option ℚ
deriving DecidableEq, Repr

/-- Row of `StatementUploadModel` as read by `check_filename_duplicates`. -/
structure StatementUpload where
  id : Nat
  original_filename : String
  upload_timestamp : String
  processing_status : String
  account_id : Option Nat
deriving DecidableEq, Repr

/-- The `existing_balance` dict attached to a `DuplicateCheckResult`; the three
call sites build three different dict shapes. -/
inductive ExistingInfo where
  | investment (id : Nat) (balance_date : SDate) (balance_amount : ℚ)
      (data_source : String) (notes : Option String) (created_at : Option String)
      (confidence_score : Option ℚ)
  | bank (id : Nat) (ending_balance : ℚ) (statement_date : SDate)
      (statement_month : String) (data_source : String) (confidence_score : Option ℚ)
  | upload (upload_id : Nat) (upload_date : String) (processing_status : String)
      (account_id : Option Nat)
deriving DecidableEq, Repr

/-- The `DuplicateCheckResult` dataclass, with its Python default values. -/
structure DuplicateCheckResult where
  is_duplicate : Bool
  conflict_type : String
  message : String
  existing_balance : Option ExistingInfo := none
  similarity_percentage : ℚ := 0
  recommendation : String := ""
deriving DecidableEq, Repr

/-- Source `MonthlyDuplicateDetector.similarity_threshold` (1% difference is "same"). -/
def similarity_threshold : ℚ := 1 / 100

/-- Source `MonthlyDuplicateDetector.warning_threshold` (5% difference gets warning). -/
def warning_threshold : ℚ := 5 / 100

/-- Database environment for the investment (portfolio) balance table; `fail`
models the session raising on query execution. -/
structure InvestmentDb where
  balances : List PortfolioBalance
  fail : Option String := none

/-- Database environment for the bank balance table. -/
structure BankDb where
  balances : List BankBalance
  fail : Option String := none

/-- Database environment for the statement upload table. -/
structure UploadDb where
  uploads : List StatementUpload
  fail : Option String := none

/-- Python truthiness of the `exclude_id` argument: `if exclude_id:` is False
for `None` and for `0`. -/
def excludeTruthy : Option Nat → Bool
  | none => false
  | some i => i != 0

/-- The filter built in `check_monthly_duplicates` lines 53-63: same account,
same year and month of `balance_date`, minus the optionally excluded id. -/
def monthFilter (db : InvestmentDb) (account_id : Nat) (balance_date : SDate)
    (exclude_id : Option Nat) : List PortfolioBalance :=
  let base := db.balances.filter (fun b =>
    decide (b.account_id = account_id ∧
      b.balance_date.year = balance_date.year ∧
      b.balance_date.month = balance_date.month))
  if excludeTruthy exclude_id then
    base.filter (fun b => b.id != exclude_id.getD 0)
  else base

/-- Source `query.all()` for the investment check: raises if the session fails. -/
def monthQuery (db : InvestmentDb) (account_id : Nat) (balance_date : SDate)
    (exclude_id : Option Nat) : Except PyErr (List PortfolioBalance) :=
  match db.fail with
  | some m => Except.error (PyErr.db m)
  | none => Except.ok (monthFilter db account_id balance_date exclude_id)

/-- Python semantics of `1.0 - x` where `x` is a `decimal.Decimal`: arithmetic
between `float` and `Decimal` is unsupported, so the interpreter raises
`TypeError`.  `_analyze_conflict` line 126 (`similarity = 1.0 - (amount_diff /
existing_amount)`) hits this whenever `existing_amount != 0`; the bank variant
avoids it by explicit `float(...)` conversion. -/
def floatMinusDecimal (_x : ℚ) : Except PyErr ℚ :=
  Except.error PyErr.typeError

/-- Source `MonthlyDuplicateDetector._analyze_conflict` (lines 102-191). -/
def analyze_conflict (existing : PortfolioBalance) (new_date : SDate)
    (new_amount : ℚ) : Except PyErr DuplicateCheckResult := do
  let existing_amount := existing.balance_amount
  let similarity ←
    (if existing_amount = 0 then
      pure (if new_amount = 0 then (1 : ℚ) else 0)
    else
      floatMinusDecimal (|existing_amount - new_amount| / existing_amount))
  let similarity_percentage := similarity * 100
  let existing_info : ExistingInfo :=
    ExistingInfo.investment existing.id existing.balance_date
      existing.balance_amount existing.data_source existing.notes
      existing.created_at
      (match existing.confidence_score with
        | some c => if c = 0 then none else some c
        | none => none)
  if existing.balance_date = new_date then
    if similarity ≥ 1 - similarity_threshold then
      pure { is_duplicate := true, conflict_type := "exact_duplicate",
             message := "Identical balance already exists",
             existing_balance := some existing_info,
             similarity_percentage := similarity_percentage,
             recommendation := "block_save" }
    else
      pure { is_duplicate := true, conflict_type := "same_date_different_amount",
             message := "Different balance exists for same date",
             existing_balance := some existing_info,
             similarity_percentage := similarity_percentage,
             recommendation := "require_confirmation" }
  else
    if similarity ≥ 1 - similarity_threshold then
      pure { is_duplicate := true, conflict_type := "similar_monthly_balance",
             message := "Very similar balance exists in same month",
             existing_balance := some existing_info,
             similarity_percentage := similarity_percentage,
             recommendation := "warn_user" }
    else if similarity ≥ 1 - warning_threshold then
      pure { is_duplicate := true, conflict_type := "monthly_update",
             message := "Monthly balance update",
             existing_balance := some existing_info,
             similarity_percentage := similarity_percentage,
             recommendation := "suggest_update" }
    else
      pure { is_duplicate := true, conflict_type := "monthly_large_difference",
             message := "Large difference from existing monthly balance",
             existing_balance := some existing_info,
             similarity_percentage := similarity_percentage,
             recommendation := "manual_review" }

/-- The "no conflicts" result used both before and after the loop. -/
def noConflictResult : DuplicateCheckResult :=
  { is_duplicate := false, conflict_type := "none",
    message := "No conflicts detected", recommendation := "safe_to_save" }

/-- The `for existing in existing_balances` loop of `check_monthly_duplicates`
(lines 76-90); falls through to the post-loop "No conflicts found" return. -/
def check_loop (new_date : SDate) (new_amount : ℚ) :
    List PortfolioBalance → Except PyErr DuplicateCheckResult
  | [] => pure noConflictResult
  | existing :: rest => do
    let conflict_result ← analyze_conflict existing new_date new_amount
    if conflict_result.is_duplicate then
      pure conflict_result
    else
      check_loop new_date new_amount rest

/-- Body of the `try:` block of `check_monthly_duplicates` (lines 51-90). -/
def run_check_monthly (db : InvestmentDb) (account_id : Nat)
    (balance_date : SDate) (balance_amount : ℚ) (exclude_id : Option Nat) :
    Except PyErr DuplicateCheckResult := do
  let existing_balances ← monthQuery db account_id balance_date exclude_id
  if existing_balances = [] then
    pure noConflictResult
  else
    check_loop balance_date balance_amount existing_balances

/-- The error result built by the `except Exception` handler of
`check_monthly_duplicates` (lines 92-98); `str(e)` interpolation elided. -/
def invErrorResult : DuplicateCheckResult :=
  { is_duplicate := false, conflict_type := "error",
    message := "Error checking duplicates", recommendation := "manual_review" }

/-- Source `MonthlyDuplicateDetector.check_monthly_duplicates` (lines 30-100): the
`try:` body with every exception converted by the handler. -/
def check_monthly_duplicates (db : InvestmentDb) (account_id : Nat)
    (balance_date : SDate) (balance_amount : ℚ) (exclude_id : Option Nat) :
    DuplicateCheckResult :=
  match run_check_monthly db account_id balance_date balance_amount exclude_id with
  | Except.ok r => r
  | Except.error _ => invErrorResult

/-- Source `MonthlyDuplicateDetector.check_filename_duplicates` (lines 193-241):
filter on `original_filename`, `.first()`, with its own exception handler. -/
def check_filename_duplicates (db : UploadDb) (filename : String) :
    DuplicateCheckResult :=
  match db.fail with
  | some _ =>
    { is_duplicate := false, conflict_type := "error",
      message := "Error checking filename", recommendation := "manual_review" }
  | none =>
    match (db.uploads.filter (fun u => u.original_filename == filename)).head? with
    | some existing =>
      { is_duplicate := true, conflict_type := "filename_duplicate",
        message := "File was already uploaded",
        existing_balance := some (ExistingInfo.upload existing.id
          existing.upload_timestamp existing.processing_status existing.account_id),
        recommendation := "warn_user" }
    | none =>
      { is_duplicate := false, conflict_type := "none",
        message := "Filename is unique", recommendation := "safe_to_save" }

/-- The filter of `check_bank_monthly_duplicates` lines 268-274: same account
name and `YYYY-MM` statement month, minus the optionally excluded id. -/
def bankFilter (db : BankDb) (account_name statement_month : String)
    (exclude_id : Option Nat) : List BankBalance :=
  let base := db.balances.filter (fun b =>
    b.account_name == account_name && b.statement_month == statement_month)
  if excludeTruthy exclude_id then
    base.filter (fun b => b.id != exclude_id.getD 0)
  else base

/-- The similarity computed at lines 290-293 of the bank check: a 0-to-1
fraction (note: not multiplied by 100), via explicit `float(...)` casts. -/
def bank_similarity (existing_amount new_amount : ℚ) : ℚ :=
  if existing_amount = 0 then (if new_amount = 0 then 1 else 0)
  else 1 - |new_amount - existing_amount| / existing_amount

/-- Source `MonthlyDuplicateDetector.check_bank_monthly_duplicates` (lines 242-356).
The `try:` has only a `finally:`, no `except`, so a failing query propagates
as `Except.error`. -/
def check_bank_monthly_duplicates (db : BankDb)
    (account_name statement_month : String) (ending_balance : ℚ)
    (statement_date : SDate) (exclude_id : Option Nat) :
    Except PyErr DuplicateCheckResult := do
  let existing? ←
    (match db.fail with
      | some m => Except.error (PyErr.db m)
      | none => Except.ok (bankFilter db account_name statement_month exclude_id).head?)
  match existing? with
  | none =>
    pure { is_duplicate := false, conflict_type := "no_conflict",
           message := "No duplicate found" }
  | some existing =>
    let existing_amount := existing.ending_balance
    let new_amount := ending_balance
    let similarity_percentage := bank_similarity existing_amount new_amount
    let existing_info : ExistingInfo :=
      ExistingInfo.bank existing.id existing.ending_balance
        existing.statement_date existing.statement_month existing.data_source
        existing.confidence_score
    if existing.statement_date = statement_date then
      if |existing_amount - new_amount| ≤ 1 / 100 then
        pure { is_duplicate := true, conflict_type := "identical_bank_balance",
               message := "Identical bank balance already exists",
               existing_balance := some existing_info,
               similarity_percentage := 1,
               recommendation := "auto_skip" }
      else
        pure { is_duplicate := true, conflict_type := "same_date_different_amount",
               message := "Different amount for same date",
               existing_balance := some existing_info,
               similarity_percentage := similarity_percentage,
               recommendation := "manual_review" }
    else
      if similarity_percentage ≥ 99 / 100 then
        pure { is_duplicate := true, conflict_type := "similar_bank_balance",
               message := "Very similar balance exists in same month",
               existing_balance := some existing_info,
               similarity_percentage := similarity_percentage,
               recommendation := "suggest_update" }
      else if similarity_percentage ≥ 95 / 100 then
        pure { is_duplicate := true, conflict_type := "bank_monthly_update",
               message := "Monthly update detected",
               existing_balance := some existing_info,
               similarity_percentage := similarity_percentage,
               recommendation := "manual_review" }
      else
        pure { is_duplicate := true, conflict_type := "bank_large_difference",
               message := "Large difference from existing monthly balance",
               existing_balance := some existing_info,
               similarity_percentage := similarity_percentage,
               recommendation := "manual_review" }

/-! ## PDF processor (`pdf_processor.py`)

String scanning is done on `List Char`.  Recursions that do not consume the
list head-first carry a `fuel` argument, always called with more fuel than the
input length, so they are structurally recursive (and kernel-evaluable). -/

/-- Python substring test `needle in hay` (contiguous): prefix at some offset. -/
def prefixOf : List Char → List Char → Bool
  | [], _ => true
  | _ :: _, [] => false
  | a :: as, b :: bs => (a == b) && prefixOf as bs

/-- Python substring test `needle in hay`. -/
def subIn (needle : List Char) : List Char → Bool
  | [] => needle.isEmpty
  | c :: rest => prefixOf needle (c :: rest) || subIn needle rest

/-- Python `str.strip()` with no argument: remove leading and trailing
whitespace. -/
def stripChars (l : List Char) : List Char :=
  ((l.dropWhile Char.isWhitespace).reverse.dropWhile Char.isWhitespace).reverse

/-- Natural number denoted by a list of decimal digit characters. -/
def digitsToNat (l : List Char) : Nat :=
  l.foldl (fun a c => 10 * a + (c.toNat - 48)) 0

/-- Python `float(s)` restricted to the token shapes `_clean_amount_string` /
`_parse_currency_amount` can produce: digits with at most one decimal point;
`none` models `ValueError`. -/
def floatOfChars (cs : List Char) : Option ℚ :=
  let ip := cs.takeWhile (fun c => c != '.')
  match cs.drop ip.length with
  | [] =>
    if cs ≠ [] ∧ cs.all Char.isDigit then some (digitsToNat cs) else none
  | '.' :: fp =>
    if ip.all Char.isDigit ∧ fp.all Char.isDigit ∧ (ip ≠ [] ∨ fp ≠ []) then
      some ((digitsToNat ip : ℚ) + (digitsToNat fp : ℚ) / 10 ^ fp.length)
    else none
  | _ :: _ => none

/-- Source `PDFProcessor._parse_currency_amount`: strip `$` and `,`, then `float`;
a parse failure is caught and returns `0.0`. -/
def parse_currency_amount (s : List Char) : ℚ :=
  let cleaned := s.filter (fun c => !(c == '$' || c == ','))
  match floatOfChars cleaned with
  | some v => v
  | none => 0

/-- Length (after the `$`) matched by the currency regex tail `[\d,]+\.?\dX`
where `X` is `{0,2}` when `strict2` is true (page scoring regex) and `*`
when false (confidence regex); `none` when `[\d,]+` cannot match. -/
def matchCurrencyLen (strict2 : Bool) (rest : List Char) : Option Nat :=
  let run := rest.takeWhile (fun c => c.isDigit || c == ',')
  if run.isEmpty then none
  else
    match rest.drop run.length with
    | '.' :: after2 =>
      let ds := after2.takeWhile Char.isDigit
      let ds2 := if strict2 then ds.take 2 else ds
      some (run.length + 1 + ds2.length)
    | _ => some run.length

/-- Source `re.findall` for the two currency regexes: leftmost, non-overlapping
matches, returned as the matched character lists. -/
def currencyFindAll (strict2 : Bool) : Nat → List Char → List (List Char)
  | 0, _ => []
  | _, [] => []
  | fuel + 1, c :: rest =>
    if c == '$' then
      match matchCurrencyLen strict2 rest with
      | some n => ('$' :: rest.take n) :: currencyFindAll strict2 fuel (rest.drop n)
      | none => currencyFindAll strict2 fuel rest
    else currencyFindAll strict2 fuel rest

/-- All matches of the currency regex in a string (fuel = full length + 1). -/
def currency_matches (strict2 : Bool) (s : String) : List (List Char) :=
  currencyFindAll strict2 (s.data.length + 1) s.data

/-- Separator class `[/\-]` of the date regex. -/
def isSep (c : Char) : Bool := c == '/' || c == '-'

/-- Source `\d{4}` at the head of the list. -/
def matchD4 : List Char → Bool
  | a :: b :: c :: d :: _ => a.isDigit && b.isDigit && c.isDigit && d.isDigit
  | _ => false

/-- Second half `\d{1,2}[/\-]\d{4}` of the date regex with the middle group
bound to exactly `n2` digits; returns the matched length of this half. -/
def tryDateGroup2 (cs : List Char) (n2 : Nat) : Option Nat :=
  let g2 := cs.take n2
  if g2.length = n2 ∧ g2.all Char.isDigit then
    match cs.drop n2 with
    | s2 :: rest2 => if isSep s2 ∧ matchD4 rest2 then some (n2 + 1 + 4) else none
    | [] => none
  else none

/-- Date regex with the first group bound to exactly `n1` digits; the middle
group backtracks greedily (2 digits, then 1). -/
def tryDateFrom (cs : List Char) (n1 : Nat) : Option Nat :=
  let g1 := cs.take n1
  if g1.length = n1 ∧ g1.all Char.isDigit then
    match cs.drop n1 with
    | s1 :: rest1 =>
      if isSep s1 then
        match tryDateGroup2 rest1 2 with
        | some m => some (n1 + 1 + m)
        | none =>
          match tryDateGroup2 rest1 1 with
          | some m => some (n1 + 1 + m)
          | none => none
      else none
    | [] => none
  else none

/-- Length matched by `\d{1,2}[/\-]\d{1,2}[/\-]\d{4}` at this position
(greedy with backtracking: first group tries 2 digits, then 1). -/
def matchDateLen (cs : List Char) : Option Nat :=
  match tryDateFrom cs 2 with
  | some n => some n
  | none => tryDateFrom cs 1

/-- Source `re.findall` count for the date regex: leftmost, non-overlapping. -/
def dateFindCount : Nat → List Char → Nat
  | 0, _ => 0
  | _, [] => 0
  | fuel + 1, c :: rest =>
    match matchDateLen (c :: rest) with
    | some n => 1 + dateFindCount fuel ((c :: rest).drop n)
    | none => dateFindCount fuel rest

/-- Number of matches of the date regex in a string. -/
def date_match_count (s : String) : Nat :=
  dateFindCount (s.data.length + 1) s.data

/-- Characters counted as "weird" by the coherence factor: not alphanumeric,
not whitespace, and not in `.,/$%-()`. -/
def isWeird (c : Char) : Bool :=
  !(c.isAlphanum || c.isWhitespace ||
    (c == '.' || c == ',' || c == '/' || c == '$' || c == '%' || c == '-' ||
     c == '(' || c == ')'))

/-- The ten financial keywords of `_calculate_text_confidence`. -/
def confidence_keywords : List String :=
  ["balance", "account", "total", "value", "portfolio",
   "investment", "statement", "period", "$", "amount"]

/-- Lowercased character data of a string (Python `str.lower()`). -/
def lowerData (s : String) : List Char := s.data.map Char.toLower

/-- Length factor of `_calculate_text_confidence`: `min(len(text)/1000, 1.0)`. -/
def length_score (text : String) : ℚ :=
  min ((text.data.length : ℚ) / 1000) 1

/-- Keyword factor: fraction of the ten keywords occurring in the lowercased
text, capped at 1. -/
def keyword_score (text : String) : ℚ :=
  let keyword_count :=
    (confidence_keywords.filter (fun k => subIn (lowerData k) (lowerData text))).length
  min ((keyword_count : ℚ) / (confidence_keywords.length : ℚ)) 1

/-- Pattern factor: `(currency matches + date matches) / 10`, capped at 1. -/
def pattern_score (text : String) : ℚ :=
  min ((((currency_matches false text).length : ℚ) + (date_match_count text : ℚ)) / 10) 1

/-- Coherence factor: `max(0, 1 - weird_chars / len(text))`. -/
def coherence_score (text : String) : ℚ :=
  max 0 (1 - ((text.data.filter isWeird).length : ℚ) / (text.data.length : ℚ))

/-- The unweighted average of the four quality factors (`base_confidence`). -/
def text_quality_average (text : String) : ℚ :=
  (length_score text + keyword_score text + pattern_score text +
    coherence_score text) / 4

/-- Source `method_multipliers.get(method, 0.5)` of `_calculate_text_confidence`. -/
def method_multiplier (method : String) : ℚ :=
  if method = "pdfplumber" then 1
  else if method = "pypdf2" then 85 / 100
  else if method = "ocr" then 7 / 10
  else 1 / 2

/-- Source `PDFProcessor._calculate_text_confidence` (lines 483-538). -/
def calculate_text_confidence (text : String) (method : String) : ℚ :=
  if text = "" ∨ (stripChars text.data).length < 10 then 0
  else min (text_quality_average text * method_multiplier method) 1

/-- The confidence reported by `_extract_with_pypdf2` (line 423) for a given
extracted full text: the base calculation is further multiplied by 0.8. -/
def pypdf2_document_confidence (full_text : String) : ℚ :=
  calculate_text_confidence full_text "pypdf2" * (8 / 10)

/-- The confidence reported by `_extract_with_ocr` (line 475) for a given
extracted full text: the base calculation is further multiplied by 0.6. -/
def ocr_document_confidence (full_text : String) : ℚ :=
  calculate_text_confidence full_text "ocr" * (6 / 10)

/-! ### Page relevance scoring (`_score_page_for_financial_content`) -/

/-- Wells Fargo summary-page indicator keywords (highest priority). -/
def wf_summary_keywords : List String :=
  ["statement period activity summary", "beginning balance on",
   "ending balance on", "deposits/additions", "withdrawals/subtractions"]

/-- Transaction-page indicator keywords (penalty). -/
def transaction_penalty_keywords : List String :=
  ["transaction history", "check deposits", "check number",
   "description withdrawals", "transaction history (continued)"]

/-- General financial keywords (medium weight). -/
def general_keywords : List String :=
  ["balance", "account", "total", "value", "statement"]

/-- Count of keywords from a list occurring in the lowercased text. -/
def keywordHits (keywords : List String) (text : String) : Nat :=
  (keywords.filter (fun k => subIn k.data (lowerData text))).length

/-- Summary factor: `min(count/5, 1.0) * 2.0` (double weight). -/
def summary_score (text : String) : ℚ :=
  min ((keywordHits wf_summary_keywords text : ℚ) /
    (wf_summary_keywords.length : ℚ)) 1 * 2

/-- Transaction penalty: `min(count/3, 0.5)` (capped at 50%). -/
def transaction_penalty (text : String) : ℚ :=
  min ((keywordHits transaction_penalty_keywords text : ℚ) / 3) (1 / 2)

/-- General keyword factor: `min(count/5, 1.0)`. -/
def general_keyword_score (text : String) : ℚ :=
  min ((keywordHits general_keywords text : ℚ) / (general_keywords.length : ℚ)) 1

/-- Currency factor: count of matched currency amounts parsing to more than
1000, divided by 5, capped at 1. -/
def currency_density_score (text : String) : ℚ :=
  let large_amounts :=
    (currency_matches true text).filter (fun amt => decide (1000 < parse_currency_amount amt))
  min ((large_amounts.length : ℚ) / 5) 1

/-- Source `PDFProcessor._score_page_for_financial_content` (lines 272-326). -/
def score_page_for_financial_content (text : String) : ℚ :=
  if text = "" then 0
  else
    let base_score := (summary_score text + general_keyword_score text +
      currency_density_score text) / 3
    let final_score := max 0 (base_score - transaction_penalty text)
    min final_score 1

/-! ### Whole-document extraction (`extract_text`) -/

/-- Environment for `extract_text`: whether `os.path.exists` holds, and the
outcome of each extraction method in priority order (pdfplumber, PyPDF2, OCR);
`Except.error` models a method raising inside the loop. -/
structure ExtractEnv where
  path_exists : Bool
  methods : List (Except PyErr (String × ℚ))

/-- The method loop of `extract_text` (lines 353-373): a raising method is
caught and skipped; text is accepted when truthy with more than 50 characters
after stripping; otherwise fall through to `("", 0.0)`. -/
def try_methods : List (Except PyErr (String × ℚ)) → String × ℚ
  | [] => ("", 0)
  | m :: rest =>
    match m with
    | Except.error _ => try_methods rest
    | Except.ok (text, confidence) =>
      if text ≠ "" ∧ 50 < (stripChars text.data).length then (text, confidence)
      else try_methods rest

/-- Source `PDFProcessor.extract_text` (lines 336-373): raises `FileNotFoundError`
when the path does not exist (line 348), otherwise runs the method loop. -/
def extract_text (env : ExtractEnv) : Except PyErr (String × ℚ) :=
  if env.path_exists = false then Except.error PyErr.fileNotFound
  else Except.ok (try_methods env.methods)

/-! ### Page detection (`extract_with_page_detection`) -/

/-- Environment for page detection: path existence, the outcome inside
`_get_page_count` (which falls back to 1 on error), and per 0-based page the
`(text, confidence)` pair `_extract_page_text` returns (that helper catches
its own exceptions and returns `("", 0.0)`). -/
structure PageEnv where
  path_exists : Bool
  page_count : Except PyErr Nat
  page_text : Nat → String × ℚ

/-- Source `PDFProcessor._get_page_count` (lines 227-241): 1 on error. -/
def get_page_count (env : PageEnv) : Nat :=
  match env.page_count with
  | Except.ok n => n
  | Except.error _ => 1

/-- One entry of the `page_scores` dict (keyed by 1-based page number). -/
structure PageScore where
  page : Nat
  text : String
  confidence : ℚ
  financial_score : ℚ
  total_score : ℚ
deriving DecidableEq, Repr

/-- The scoring loop of `extract_with_page_detection` (lines 122-141): scan
the first `min(3, total_pages)` pages, keep pages with truthy text, score
each as `confidence * 0.3 + financial_score * 0.7`. -/
def page_scores (env : PageEnv) : List PageScore :=
  (List.range (min 3 (get_page_count env))).filterMap (fun page_num =>
    let pr := env.page_text page_num
    if pr.1 ≠ "" then
      let financial_score := score_page_for_financial_content pr.1
      some { page := page_num + 1, text := pr.1, confidence := pr.2,
             financial_score := financial_score,
             total_score := pr.2 * (3 / 10) + financial_score * (7 / 10) }
    else none)

/-- Python `max(keys, key=...)`: the first entry attaining the maximal
`total_score` (a later entry replaces only when strictly greater). -/
def pick_best (best : PageScore) : List PageScore → PageScore
  | [] => best
  | e :: rest => pick_best (if best.total_score < e.total_score then e else best) rest

/-- Source `PDFProcessor.extract_with_page_detection` (lines 98-162): raises
`FileNotFoundError` when the path does not exist (line 109); otherwise
returns `(best_text, confidence, 1-based page, total_pages)`, or
`("", 0.0, 1, total_pages)` when no scanned page yields text. -/
def extract_with_page_detection (env : PageEnv) :
    Except PyErr (String × ℚ × Nat × Nat) :=
  if env.path_exists = false then Except.error PyErr.fileNotFound
  else
    Except.ok (
      let total_pages := get_page_count env
      match page_scores env with
      | [] => ("", 0, 1, total_pages)
      | s :: rest =>
        let best := pick_best s rest
        (best.text, best.confidence, best.page, total_pages))

/-! ## Statement parser (`statement_parser.py`) -/

/-- Source `re.sub` for `\s+` replaced by a single space: each maximal whitespace run
collapses to one space (fuel = length + 1). -/
def collapseWs : Nat → List Char → List Char
  | 0, _ => []
  | _, [] => []
  | fuel + 1, c :: rest =>
    if c.isWhitespace then
      ' ' :: collapseWs fuel (rest.dropWhile Char.isWhitespace)
    else c :: collapseWs fuel rest

/-- Characters kept by the artifact filter `[^\w\s\$\.\,\-\/\(\):\%]`:
word characters, whitespace, and the listed punctuation. -/
def artifactAllowed (c : Char) : Bool :=
  c.isAlphanum || c == '_' || c.isWhitespace ||
    (c == '$' || c == '.' || c == ',' || c == '-' || c == '/' ||
     c == '(' || c == ')' || c == ':' || c == '%')

/-- Source `re.sub` for `\$\s+` replaced by `$`: a dollar sign absorbs the following
whitespace run (fuel = length + 1). -/
def normCurrency : Nat → List Char → List Char
  | 0, _ => []
  | _, [] => []
  | fuel + 1, c :: rest =>
    if c == '$' && (match rest with
        | d :: _ => d.isWhitespace
        | [] => false) then
      '$' :: normCurrency fuel (rest.dropWhile Char.isWhitespace)
    else c :: normCurrency fuel rest

/-- Source `StatementParser._clean_text` (lines 88-99): collapse whitespace, blank
out OCR artifacts, glue `$` to the following token, strip. -/
def clean_text (text : String) : String :=
  let step1 := collapseWs (text.data.length + 1) text.data
  let step2 := step1.map (fun c => if artifactAllowed c then c else ' ')
  let step3 := normCurrency (step2.length + 1) step2
  String.mk (stripChars step3)

/-- The ordered institution marker table of `_detect_institution`
(lines 106-142). -/
def institution_checks : List (String × List String) :=
  [("wells_fargo",
    ["wells fargo combined statement of accounts",
     "wells fargo everyday checking",
     "wells fargo platinum savings",
     "wells fargo bank, n.a.",
     "wellsfargo.com",
     "statement period activity summary"]),
   ("wealthfront",
    ["wealthfront brokerage llc", "wealthfront advisers",
     "monthly statement for march", "individual investment account",
     "wealthfront.com", "support@wealthfront.com",
     "wealthfront cash account",
     "investment account",
     "wealthfront savings",
     "cash account"]),
   ("acorns",
    ["acorns securities llc", "acorns advisers llc",
     "base investment account", "acorns.com"]),
   ("robinhood",
    ["robinhood securities llc", "robinhood financial llc",
     "help@robinhood.com", "robinhood gold"]),
   ("schwab",
    ["charles schwab co inc", "schwab one account",
     "schwab.com/login", "member sipc schwab",
     "schwab representative"]),
   ("adp",
    ["transaction and balance history", "transaction history by fund",
     "personal rate of return", "mykplan.adp.com",
     "modified dietz method"])]

/-- Source `StatementParser._detect_institution` (lines 101-152): first institution
with any marker occurring in the lowercased text, else `"unknown"`. -/
def detect_institution (text : String) : String :=
  match institution_checks.find? (fun p => p.2.any (fun m => subIn m.data (lowerData text))) with
  | some p => p.1
  | none => "unknown"

/-- The `StatementData` dataclass, with its Python defaults (`__post_init__`
turns the `None` notes into an empty list). -/
structure StatementData where
  institution : Option String := none
  account_type : Option String := none
  statement_period_start : Option SDate := none
  statement_period_end : Option SDate := none
  beginning_balance : Option ℚ := none
  ending_balance : Option ℚ := none
  confidence_score : ℚ := 0
  extraction_notes : List String := []
deriving DecidableEq, Repr

/-- Python truthiness of an optional `Decimal` field (`None` and `0` falsy). -/
def decimalTruthy : Option ℚ → Bool
  | none => false
  | some x => decide (x ≠ 0)

/-- Python truthiness of an optional string field (`None` and `""` falsy). -/
def stringTruthy : Option String → Bool
  | none => false
  | some s => decide (s ≠ "")

/-- Python truthiness of an optional date field (a `date` object is always
truthy). -/
def dateTruthy : Option SDate → Bool
  | none => false
  | some _ => true

/-- Source `StatementParser._calculate_confidence` (lines 578-621): average of five
factors.  The `text` argument is accepted and ignored, exactly as in the
source. -/
def calculate_confidence (d : StatementData) (_text : String) : ℚ :=
  let f1 : ℚ :=
    if stringTruthy d.institution ∧ d.institution ≠ some "unknown" then 8 / 10
    else 2 / 10
  let f2 : ℚ :=
    if decimalTruthy d.beginning_balance ∧ decimalTruthy d.ending_balance then 9 / 10
    else if decimalTruthy d.ending_balance then 7 / 10
    else 3 / 10
  let f3 : ℚ :=
    if dateTruthy d.statement_period_start ∧ dateTruthy d.statement_period_end then 9 / 10
    else if dateTruthy d.statement_period_end then 7 / 10
    else 4 / 10
  let f4 : ℚ := if stringTruthy d.account_type then 8 / 10 else 5 / 10
  let f5 : ℚ :=
    if 3 ≤ d.extraction_notes.length then 9 / 10
    else if 2 ≤ d.extraction_notes.length then 8 / 10
    else if 1 ≤ d.extraction_notes.length then 6 / 10
    else 3 / 10
  (f1 + f2 + f3 + f4 + f5) / 5

/-- Keys of `self.institution_extractors` (parser constructor, lines 42-49). -/
def extractor_keys : List String :=
  ["wells_fargo", "adp", "acorns", "robinhood", "schwab", "wealthfront"]

/-- Source `StatementParser.parse_statement` (lines 51-86), embedded parametrically
in the six regex-driven institution extractors: `extract inst cleaned` stands
for `self.institution_extractors[inst](cleaned)`.  Text cleaning, institution
detection, the unknown-institution early return (`confidence_score=0.1`,
line 74) and the confidence assignment (line 83) are embedded in full. -/
def parse_statement (extract : String → String → StatementData)
    (text : String) : StatementData :=
  let cleaned_text := clean_text text
  let institution := detect_institution cleaned_text
  if institution ∉ extractor_keys then
    { institution := some institution, confidence_score := 1 / 10,
      extraction_notes := ["Unknown institution: " ++ institution] }
  else
    let d0 := extract institution cleaned_text
    let d1 := { d0 with institution := some institution }
    { d1 with confidence_score := calculate_confidence d1 cleaned_text }

/-! ## Concrete environments for witnesses and counterexamples -/

/-- A stored investment balance of 100 dollars on 2025-05-15. -/
def sampleBalance : PortfolioBalance :=
  { id := 1, account_id := 7, balance_date := ⟨2025, 5, 15⟩, balance_amount := 100,
    data_source := "manual", notes := none, created_at := none, confidence_score := none }

/-- Investment table holding only `sampleBalance`. -/
def c2_db : InvestmentDb := { balances := [sampleBalance] }

/-- A stored investment balance whose amount is zero. -/
def zeroBalance : PortfolioBalance := { sampleBalance with id := 2, balance_amount := 0 }

/-- Investment table holding only `zeroBalance`. -/
def c10_db : InvestmentDb := { balances := [zeroBalance] }

/-- An investment session whose query raises. -/
def failInvDb : InvestmentDb := { balances := [], fail := some "connection lost" }

/-- An upload session whose query raises. -/
def failUploadDb : UploadDb := { uploads := [], fail := some "connection lost" }

/-- A bank session whose query raises. -/
def failBankDb : BankDb := { balances := [], fail := some "connection lost" }

/-- A stored bank balance of 100 dollars dated 2025-05-15. -/
def sampleBankBalance : BankBalance :=
  { id := 1, account_name := "Wells Fargo Checking", statement_month := "2025-05",
    ending_balance := 100, statement_date := ⟨2025, 5, 15⟩, data_source := "pdf",
    confidence_score := none }

/-- Bank table holding only `sampleBankBalance`. -/
def oneBankDb : BankDb := { balances := [sampleBankBalance] }

/-- A path that does not exist (for `extract_text`). -/
def c1_missing_env : ExtractEnv := { path_exists := false, methods := [] }

/-- An existing file whose only method outcome is a 2-character text. -/
def c1_ok_env : ExtractEnv := { path_exists := true, methods := [Except.ok ("hi", 1)] }

/-- A missing path for page detection. -/
def c5_missing_env : PageEnv :=
  { path_exists := false, page_count := Except.ok 3, page_text := fun _ => ("", 0) }

/-- An existing 2-page document none of whose pages yields text. -/
def c5_ok_env : PageEnv :=
  { path_exists := true, page_count := Except.ok 2, page_text := fun _ => ("", 0) }

/-- A plain text with no financial content, no weird characters, and 32
characters (at least 10 after stripping). -/
def c6_text : String := "hello world this is a plain text"

/-! ## Theorems -/

/-- Every `Except.ok` result of `_analyze_conflict` carries
`is_duplicate = true`: all five return branches set it so (the non-ok case is
the `TypeError` raised by the float-minus-Decimal subtraction at line 126). -/
theorem analyze_ok_is_duplicate {e : PortfolioBalance} {d : SDate} {a : ℚ}
    {c : DuplicateCheckResult} (h : analyze_conflict e d a = Except.ok c) :
    c.is_duplicate = true := by
  by_cases hz : e.balance_amount = 0
  · simp only [analyze_conflict, hz, if_true, bind, Except.bind, pure, Except.pure] at h
    repeat' split at h
    all_goals (rcases Except.ok.inj h with rfl; rfl)
  · simp [analyze_conflict, hz, floatMinusDecimal, bind, Except.bind] at h

/-- A conflict reported by `_analyze_conflict` stops the loop at once. -/
theorem check_loop_cons_ok {d : SDate} {a : ℚ} {e : PortfolioBalance}
    {rest : List PortfolioBalance} {c : DuplicateCheckResult}
    (ha : analyze_conflict e d a = Except.ok c) (hd : c.is_duplicate = true) :
    check_loop d a (e :: rest) = Except.ok c := by
  simp [check_loop, bind, Except.bind, ha, hd, pure, Except.pure]

/-- An exception in `_analyze_conflict` propagates out of the loop. -/
theorem check_loop_cons_err {d : SDate} {a : ℚ} {e : PortfolioBalance}
    {rest : List PortfolioBalance} {err : PyErr}
    (ha : analyze_conflict e d a = Except.error err) :
    check_loop d a (e :: rest) = Except.error err := by
  simp [check_loop, bind, Except.bind, ha]

/-- Any `Except.ok` outcome of `_analyze_conflict` has similarity percentage
0 or 100 (it is only reachable with a zero stored amount, where similarity is
the special-cased 1.0 or 0.0, times 100). -/
theorem analyze_ok_sp {e : PortfolioBalance} {d : SDate} {a : ℚ}
    {c : DuplicateCheckResult} (h : analyze_conflict e d a = Except.ok c) :
    c.similarity_percentage = 0 ∨ c.similarity_percentage = 100 := by
  by_cases hz : e.balance_amount = 0
  · simp only [analyze_conflict, hz, if_true, bind, Except.bind, pure, Except.pure] at h
    repeat' split at h
    all_goals (rcases Except.ok.inj h with rfl)
    all_goals (by_cases ha0 : a = 0 <;> simp only [ha0, if_true, if_false, reduceIte] <;> norm_num)
  · simp [analyze_conflict, hz, floatMinusDecimal, bind, Except.bind] at h

/-- Similarity percentages produced by the investment loop are 0 or 100. -/
theorem check_loop_ok_sp (d : SDate) (a : ℚ) :
    ∀ (l : List PortfolioBalance) (r : DuplicateCheckResult),
      check_loop d a l = Except.ok r →
      r.similarity_percentage = 0 ∨ r.similarity_percentage = 100
  | [], r, h => by
    rcases Except.ok.inj h with rfl
    exact Or.inl rfl
  | e :: rest, r, h => by
    rcases ha : analyze_conflict e d a with err | c
    · rw [check_loop_cons_err ha] at h; cases h
    · have hd := analyze_ok_is_duplicate ha
      rw [check_loop_cons_ok ha hd] at h
      rcases Except.ok.inj h with rfl
      exact analyze_ok_sp ha

/-- Similarity percentages produced by the investment `try:` body are 0 or
100. -/
theorem run_check_monthly_ok_sp {db : InvestmentDb} {account_id : Nat}
    {balance_date : SDate} {balance_amount : ℚ} {exclude_id : Option Nat}
    {r : DuplicateCheckResult}
    (h : run_check_monthly db account_id balance_date balance_amount exclude_id = Except.ok r) :
    r.similarity_percentage = 0 ∨ r.similarity_percentage = 100 := by
  unfold run_check_monthly monthQuery at h
  rcases hfail : db.fail with _ | m
  · rw [hfail] at h
    simp only [bind, Except.bind] at h
    by_cases hne : monthFilter db account_id balance_date exclude_id = []
    · rw [if_pos hne] at h
      rcases Except.ok.inj h with rfl
      exact Or.inl rfl
    · rw [if_neg hne] at h
      exact check_loop_ok_sp _ _ _ _ h
  · rw [hfail] at h; cases h

/-- The bank similarity fraction is at most 1 whenever the stored amount is
nonnegative. -/
theorem bank_similarity_le_one {e n : ℚ} (h : 0 ≤ e) : bank_similarity e n ≤ 1 := by
  unfold bank_similarity
  by_cases hz : e = 0
  · rw [if_pos hz]
    by_cases hn : n = 0 <;> simp [hn]
  · rw [if_neg hz]
    have he : 0 < e := lt_of_le_of_ne h (Ne.symm hz)
    have : 0 ≤ |n - e| / e := div_nonneg (abs_nonneg _) (le_of_lt he)
    linarith

/-- Claim C10: whenever the investment monthly check finds at least one stored
balance for the same account and calendar month and no exception occurs (the
`try:` body returns normally), the result has `is_duplicate = true`: every
`Except.ok` branch of the per-record analysis sets it, so the post-loop
"no conflicts found" return is unreachable. -/
theorem c10_nonempty_month_always_duplicate (db : InvestmentDb)
    (account_id : Nat) (balance_date : SDate) (balance_amount : ℚ)
    (exclude_id : Option Nat) (r : DuplicateCheckResult)
    (hok : run_check_monthly db account_id balance_date balance_amount exclude_id = Except.ok r)
    (hne : monthFilter db account_id balance_date exclude_id ≠ []) :
    r.is_duplicate = true := by
  unfold run_check_monthly monthQuery at hok
  rcases hfail : db.fail with _ | m
  · rw [hfail] at hok
    simp only [bind, Except.bind] at hok
    rw [if_neg hne] at hok
    rcases hl : monthFilter db account_id balance_date exclude_id with _ | ⟨e, rest⟩
    · exact absurd hl hne
    · rw [hl] at hok
      rcases ha : analyze_conflict e balance_date balance_amount with err | c'
      · rw [check_loop_cons_err ha] at hok; cases hok
      · have hd := analyze_ok_is_duplicate ha
        rw [check_loop_cons_ok ha hd] at hok
        rcases Except.ok.inj hok with rfl
        exact hd
  · rw [hfail] at hok; cases hok

/-- The result `check_monthly_duplicates` yields for `c10_db` (one stored
balance of amount zero) at the same date and amount zero. -/
def c10_result : DuplicateCheckResult :=
  { is_duplicate := true, conflict_type := "exact_duplicate",
    message := "Identical balance already exists",
    existing_balance := some (ExistingInfo.investment 2 ⟨2025, 5, 15⟩ 0 "manual" none none none),
    similarity_percentage := 1 * 100, recommendation := "block_save" }

/-- Concrete evaluation of the investment `try:` body on `c10_db`. -/
theorem c10_hok :
    run_check_monthly c10_db 7 ⟨2025, 5, 15⟩ 0 none = Except.ok c10_result := by
  have ha : analyze_conflict zeroBalance ⟨2025, 5, 15⟩ 0 = Except.ok c10_result := by
    simp only [analyze_conflict, zeroBalance, sampleBalance, bind, Except.bind, pure, Except.pure]
    norm_num [similarity_threshold, c10_result]
  simp only [run_check_monthly, monthQuery, c10_db, bind, Except.bind]
  have hfil : monthFilter { balances := [zeroBalance], fail := none } 7 ⟨2025, 5, 15⟩ none =
      [zeroBalance] := by decide
  rw [hfil]
  rw [if_neg (List.cons_ne_nil _ _)]
  exact check_loop_cons_ok ha (analyze_ok_is_duplicate ha)

/-- Witness for C10: a stored zero balance in the same month makes the check
return normally with `is_duplicate = true`. -/
theorem c10_nonempty_month_witness :
    ∃ r, run_check_monthly c10_db 7 ⟨2025, 5, 15⟩ 0 none = Except.ok r ∧
      r.is_duplicate = true :=
  ⟨c10_result, c10_hok,
    c10_nonempty_month_always_duplicate _ _ _ _ _ _ c10_hok (by decide)⟩

/-- Claim C2 (code bug): with a stored balance of 100 dollars on 2025-05-15
and a new balance of 105 dollars on 2025-05-20 — which the claimed table maps
to `monthly_update` / `suggest_update` at 95% similarity — the code instead
returns the generic error result: `similarity = 1.0 - (amount_diff /
existing_amount)` mixes `float` and `Decimal`, raising `TypeError`, which the
handler converts to `conflict_type="error"` / `manual_review`. -/
theorem c2_nonzero_existing_balance_errors :
    check_monthly_duplicates c2_db 7 ⟨2025, 5, 20⟩ 105 none = invErrorResult := by
  rfl

/-- Claim C4 (amended): the investment check converts every exception of its
`try:` body into the `conflict_type="error"` / `manual_review` result, and so
does the filename check; the bank check, whose `try:` has no `except` clause,
propagates a failing query to its caller instead. -/
theorem c4_error_catching_amended :
    (∀ (db : InvestmentDb) (account_id : Nat) (balance_date : SDate)
        (balance_amount : ℚ) (exclude_id : Option Nat) (err : PyErr),
      run_check_monthly db account_id balance_date balance_amount exclude_id =
          Except.error err →
      check_monthly_duplicates db account_id balance_date balance_amount exclude_id =
        invErrorResult) ∧
    (∀ (db : UploadDb) (filename m : String), db.fail = some m →
      check_filename_duplicates db filename =
        { is_duplicate := false, conflict_type := "error",
          message := "Error checking filename", recommendation := "manual_review" }) ∧
    (∀ (db : BankDb) (account_name statement_month : String) (ending_balance : ℚ)
        (statement_date : SDate) (exclude_id : Option Nat) (m : String),
      db.fail = some m →
      check_bank_monthly_duplicates db account_name statement_month ending_balance
          statement_date exclude_id = Except.error (PyErr.db m)) := by
  refine ⟨?_, ?_, ?_⟩
  · intro db account_id balance_date balance_amount exclude_id err h
    unfold check_monthly_duplicates
    rw [h]
  · intro db filename m h
    simp [check_filename_duplicates, h]
  · intro db account_name statement_month ending_balance statement_date exclude_id m h
    simp [check_bank_monthly_duplicates, h, bind, Except.bind]

/-- Counterexample for C4: a failing session makes the bank monthly check
propagate the exception to its caller, so not every duplicate-check operation
converts errors into a `DuplicateCheckResult`. -/
theorem c4_bank_check_propagates :
    check_bank_monthly_duplicates failBankDb "Wells Fargo Checking" "2025-05" 100
      ⟨2025, 5, 15⟩ none = Except.error (PyErr.db "connection lost") := by
  rfl

/-- Witness for C4 (amended): concrete failing sessions for all three checks. -/
theorem c4_error_catching_witness :
    check_monthly_duplicates failInvDb 1 ⟨2025, 1, 1⟩ 0 none = invErrorResult ∧
    check_filename_duplicates failUploadDb "statement.pdf" =
      { is_duplicate := false, conflict_type := "error",
        message := "Error checking filename", recommendation := "manual_review" } ∧
    check_bank_monthly_duplicates failBankDb "Acct" "2025-01" 0 ⟨2025, 1, 1⟩ none =
      Except.error (PyErr.db "connection lost") :=
  ⟨c4_error_catching_amended.1 failInvDb 1 ⟨2025, 1, 1⟩ 0 none
      (PyErr.db "connection lost") rfl,
   c4_error_catching_amended.2.1 failUploadDb "statement.pdf" "connection lost" rfl,
   c4_error_catching_amended.2.2 failBankDb "Acct" "2025-01" 0 ⟨2025, 1, 1⟩ none
      "connection lost" rfl⟩

/-- Claim C7: for the bank monthly check with a stored record for the same
account name and `YYYY-MM` month: same statement date within one cent gives
`auto_skip`; same date beyond that gives `manual_review`; a different date in
the same month gives `suggest_update` at similarity at least 99%,
`manual_review` between 95% and 99%, and `manual_review` below 95%. -/
theorem c7_bank_branch_recommendations (db : BankDb)
    (account_name statement_month : String) (ending_balance : ℚ)
    (statement_date : SDate) (exclude_id : Option Nat) (ex : BankBalance)
    (hq : db.fail = none)
    (hfirst : (bankFilter db account_name statement_month exclude_id).head? = some ex) :
    ∃ r, check_bank_monthly_duplicates db account_name statement_month
        ending_balance statement_date exclude_id = Except.ok r ∧
      r.is_duplicate = true ∧
      (ex.statement_date = statement_date →
        (|ex.ending_balance - ending_balance| ≤ 1 / 100 →
          r.recommendation = "auto_skip") ∧
        (¬ |ex.ending_balance - ending_balance| ≤ 1 / 100 →
          r.recommendation = "manual_review")) ∧
      (ex.statement_date ≠ statement_date →
        (bank_similarity ex.ending_balance ending_balance ≥ 99 / 100 →
          r.recommendation = "suggest_update") ∧
        (bank_similarity ex.ending_balance ending_balance ≥ 95 / 100 ∧
            bank_similarity ex.ending_balance ending_balance < 99 / 100 →
          r.recommendation = "manual_review") ∧
        (bank_similarity ex.ending_balance ending_balance < 95 / 100 →
          r.recommendation = "manual_review")) := by
  simp only [check_bank_monthly_duplicates, hq, hfirst, bind, Except.bind]
  by_cases hdate : ex.statement_date = statement_date
  · rw [if_pos hdate]
    by_cases hamt : |ex.ending_balance - ending_balance| ≤ 1 / 100
    · rw [if_pos hamt]
      exact ⟨_, rfl, rfl, fun _ => ⟨fun _ => rfl, fun hc => absurd hamt hc⟩,
        fun hc => absurd hdate hc⟩
    · rw [if_neg hamt]
      exact ⟨_, rfl, rfl, fun _ => ⟨fun hc => absurd hc hamt, fun _ => rfl⟩,
        fun hc => absurd hdate hc⟩
  · rw [if_neg hdate]
    by_cases h99 : bank_similarity ex.ending_balance ending_balance ≥ 99 / 100
    · rw [if_pos h99]
      refine ⟨_, rfl, rfl, fun hc => absurd hc hdate, fun _ => ⟨fun _ => rfl, ?_, ?_⟩⟩
      · rintro ⟨-, hlt⟩; exact absurd h99 (not_le.mpr hlt)
      · intro hlt; exact absurd h99 (not_le.mpr (lt_trans hlt (by norm_num)))
    · rw [if_neg h99]
      by_cases h95 : bank_similarity ex.ending_balance ending_balance ≥ 95 / 100
      · rw [if_pos h95]
        exact ⟨_, rfl, rfl, fun hc => absurd hc hdate,
          fun _ => ⟨fun hc => absurd hc h99, fun _ => rfl,
            fun hlt => absurd h95 (not_le.mpr hlt)⟩⟩
      · rw [if_neg h95]
        exact ⟨_, rfl, rfl, fun hc => absurd hc hdate,
          fun _ => ⟨fun hc => absurd hc h99,
            fun hc => absurd hc.1 h95, fun _ => rfl⟩⟩

/-- Witness for C7: a stored bank balance of 100 dollars, a new balance of 100
dollars on the same date, and the theorem applied to them. -/
theorem c7_bank_branch_witness :
    (bankFilter oneBankDb "Wells Fargo Checking" "2025-05" none).head? =
      some sampleBankBalance ∧
    ∃ r, check_bank_monthly_duplicates oneBankDb "Wells Fargo Checking" "2025-05"
        100 ⟨2025, 5, 15⟩ none = Except.ok r ∧ r.recommendation = "auto_skip" := by
  have hfirst : (bankFilter oneBankDb "Wells Fargo Checking" "2025-05" none).head? =
      some sampleBankBalance := by decide
  obtain ⟨r, hok, -, hsame, -⟩ :=
    c7_bank_branch_recommendations oneBankDb "Wells Fargo Checking" "2025-05" 100
      ⟨2025, 5, 15⟩ none sampleBankBalance rfl hfirst
  refine ⟨hfirst, r, hok, (hsame rfl).1 ?_⟩
  norm_num [sampleBankBalance]

/-- Claim C8 (amended): the `similarity_percentage` field lies in `[0, 100]`
for the investment check (all reachable values are 0 or 100) and is 0 for the
filename check; the bank check instead stores a 0-to-1 fraction, which is at
most 1 when the stored amount is nonnegative but has no lower bound. -/
theorem c8_similarity_range_amended :
    (∀ (db : InvestmentDb) (account_id : Nat) (balance_date : SDate)
        (balance_amount : ℚ) (exclude_id : Option Nat),
      0 ≤ (check_monthly_duplicates db account_id balance_date balance_amount
            exclude_id).similarity_percentage ∧
      (check_monthly_duplicates db account_id balance_date balance_amount
            exclude_id).similarity_percentage ≤ 100) ∧
    (∀ (db : UploadDb) (filename : String),
      (check_filename_duplicates db filename).similarity_percentage = 0) ∧
    (∀ (db : BankDb) (account_name statement_month : String) (ending_balance : ℚ)
        (statement_date : SDate) (exclude_id : Option Nat) (ex : BankBalance)
        (r : DuplicateCheckResult),
      (bankFilter db account_name statement_month exclude_id).head? = some ex →
      0 ≤ ex.ending_balance →
      check_bank_monthly_duplicates db account_name statement_month ending_balance
          statement_date exclude_id = Except.ok r →
      r.similarity_percentage ≤ 1) := by
  refine ⟨?_, ?_, ?_⟩
  · intro db account_id balance_date balance_amount exclude_id
    unfold check_monthly_duplicates
    rcases hrun : run_check_monthly db account_id balance_date balance_amount
        exclude_id with err | r
    · exact ⟨le_refl 0, by norm_num [invErrorResult]⟩
    · rcases run_check_monthly_ok_sp hrun with h | h <;> rw [h] <;> norm_num
  · intro db filename
    unfold check_filename_duplicates
    split
    · rfl
    · split <;> rfl
  · intro db account_name statement_month ending_balance statement_date exclude_id
      ex r hfirst hnn hok
    rcases hfail : db.fail with _ | m
    · simp only [check_bank_monthly_duplicates, hfail, hfirst, bind, Except.bind,
        pure, Except.pure] at hok
      have hsim := bank_similarity_le_one (n := ending_balance) hnn
      repeat' split at hok
      all_goals (rcases Except.ok.inj hok with rfl)
      all_goals first
        | exact hsim
        | norm_num
    · simp [check_bank_monthly_duplicates, hfail, bind, Except.bind] at hok

/-- Counterexample for C8: a stored bank balance of 100 dollars and a new
balance of 300 dollars on a different date of the same month yield
`similarity_percentage = -1`, outside `[0, 100]`. -/
theorem c8_bank_negative_similarity :
    (check_bank_monthly_duplicates oneBankDb "Wells Fargo Checking" "2025-05" 300
        ⟨2025, 5, 20⟩ none).map DuplicateCheckResult.similarity_percentage =
      Except.ok (-1) ∧ ((-1 : ℚ) < 0) := by
  constructor
  · have hfirst : (bankFilter oneBankDb "Wells Fargo Checking" "2025-05" none).head? =
        some sampleBankBalance := by decide
    have hfail : oneBankDb.fail = none := rfl
    simp only [check_bank_monthly_duplicates, hfail, hfirst, bind, Except.bind,
      pure, Except.pure]
    norm_num [sampleBankBalance, bank_similarity, Except.map]
  · norm_num

/-- Witness for C8 (amended): the bank conjunct applied to a stored balance of
100 dollars and an identical new balance. -/
theorem c8_similarity_range_witness :
    (bankFilter oneBankDb "Wells Fargo Checking" "2025-05" none).head? =
      some sampleBankBalance ∧
    (0 : ℚ) ≤ sampleBankBalance.ending_balance ∧
    ∃ r, check_bank_monthly_duplicates oneBankDb "Wells Fargo Checking" "2025-05"
        100 ⟨2025, 5, 15⟩ none = Except.ok r ∧ r.similarity_percentage ≤ 1 := by
  have hfirst : (bankFilter oneBankDb "Wells Fargo Checking" "2025-05" none).head? =
      some sampleBankBalance := by decide
  have hnn : (0 : ℚ) ≤ sampleBankBalance.ending_balance := by
    norm_num [sampleBankBalance]
  rcases hok : check_bank_monthly_duplicates oneBankDb "Wells Fargo Checking"
      "2025-05" 100 ⟨2025, 5, 15⟩ none with err | r
  · exfalso
    have hfail : oneBankDb.fail = none := rfl
    simp only [check_bank_monthly_duplicates, hfail, hfirst, bind, Except.bind,
      pure, Except.pure] at hok
    repeat' split at hok
    all_goals exact Except.noConfusion hok
  · exact ⟨hfirst, hnn, r, rfl,
      c8_similarity_range_amended.2.2 oneBankDb "Wells Fargo Checking" "2025-05"
        100 ⟨2025, 5, 15⟩ none sampleBankBalance r hfirst hnn hok⟩

/-- When every method outcome is an exception or text failing the 50-character
bar, the method loop falls through to `("", 0.0)`. -/
theorem try_methods_all_insufficient :
    ∀ l : List (Except PyErr (String × ℚ)),
      (∀ t c, Except.ok (t, c) ∈ l → ¬(t ≠ "" ∧ 50 < (stripChars t.data).length)) →
      try_methods l = ("", 0)
  | [], _ => rfl
  | Except.error e :: rest, h => by
    simp only [try_methods]
    exact try_methods_all_insufficient rest
      (fun t c hm => h t c (List.mem_cons_of_mem _ hm))
  | Except.ok (t, c) :: rest, h => by
    have hcond := h t c (List.mem_cons_self _ _)
    simp only [try_methods, if_neg hcond]
    exact try_methods_all_insufficient rest
      (fun t c hm => h t c (List.mem_cons_of_mem _ hm))

/-- Counterexample for C1: for a path that does not exist, `extract_text`
raises `FileNotFoundError` (line 348) instead of returning `("", 0.0)`. -/
theorem c1_extract_text_raises_on_missing_file :
    extract_text c1_missing_env = Except.error PyErr.fileNotFound ∧
    extract_text c1_missing_env ≠ Except.ok ("", 0) :=
  ⟨rfl, fun h => Except.noConfusion h⟩

/-- Claim C1 (amended): for an existing path `extract_text` never raises, and
when no extraction method yields text with more than 50 characters after
stripping it returns `("", 0.0)`; the non-existent-path case instead raises
`FileNotFoundError`, refuted separately. -/
theorem c1_extract_text_amended (env : ExtractEnv) (hex : env.path_exists = true) :
    (∃ p, extract_text env = Except.ok p) ∧
    ((∀ t c, Except.ok (t, c) ∈ env.methods →
        ¬(t ≠ "" ∧ 50 < (stripChars t.data).length)) →
      extract_text env = Except.ok ("", 0)) := by
  constructor
  · exact ⟨try_methods env.methods, by simp [extract_text, hex]⟩
  · intro hno
    simp only [extract_text, hex]
    rw [try_methods_all_insufficient env.methods hno]
    simp

/-- Witness for C1 (amended): an existing file whose single method outcome is
a 2-character text, hence `("", 0.0)`. -/
theorem c1_extract_text_witness :
    c1_ok_env.path_exists = true ∧ extract_text c1_ok_env = Except.ok ("", 0) := by
  refine ⟨rfl, (c1_extract_text_amended c1_ok_env rfl).2 ?_⟩
  intro t c hm
  simp only [c1_ok_env, List.mem_singleton] at hm
  rcases Except.ok.inj hm with h
  rcases Prod.mk.injEq _ _ _ _ ▸ h with ⟨rfl, rfl⟩
  decide

/-- Claim C9: the page relevance score is
`min (max 0 (average(summary, keyword, currency) - penalty)) 1` — where the
summary component already carries its double weight and the penalty is capped
at 0.5 inside `transaction_penalty` — and it always lies in `[0, 1]`. -/
theorem c9_page_relevance_score (text : String) :
    score_page_for_financial_content text =
      (if text = "" then 0
       else
         min (max 0 ((summary_score text + general_keyword_score text +
           currency_density_score text) / 3 - transaction_penalty text)) 1) ∧
    0 ≤ score_page_for_financial_content text ∧
    score_page_for_financial_content text ≤ 1 := by
  refine ⟨rfl, ?_, ?_⟩
  · by_cases h : text = ""
    · simp [score_page_for_financial_content, h]
    · simp only [score_page_for_financial_content, h, if_false]
      exact le_min (le_max_left _ _) zero_le_one
  · by_cases h : text = ""
    · simp [score_page_for_financial_content, h]
    · simp only [score_page_for_financial_content, h, if_false]
      exact min_le_right _ _

/-- The page Python `max` picks is the initial element or a member of the
list. -/
theorem pick_best_mem (b : PageScore) (l : List PageScore) :
    pick_best b l = b ∨ pick_best b l ∈ l := by
  induction l generalizing b with
  | nil => exact Or.inl rfl
  | cons e rest ih =>
    simp only [pick_best]
    rcases ih (if b.total_score < e.total_score then e else b) with h | h
    · rw [h]
      split
      · exact Or.inr (List.mem_cons_self _ _)
      · exact Or.inl rfl
    · exact Or.inr (List.mem_cons_of_mem _ h)

/-- The page Python `max` picks has a maximal combined score. -/
theorem pick_best_le (b : PageScore) (l : List PageScore) :
    b.total_score ≤ (pick_best b l).total_score ∧
    ∀ x ∈ l, x.total_score ≤ (pick_best b l).total_score := by
  induction l generalizing b with
  | nil => exact ⟨le_refl _, fun x hx => absurd hx (List.not_mem_nil x)⟩
  | cons e rest ih =>
    simp only [pick_best]
    obtain ⟨h1, h2⟩ := ih (if b.total_score < e.total_score then e else b)
    constructor
    · refine le_trans ?_ h1
      by_cases hbe : b.total_score < e.total_score
      · rw [if_pos hbe]; exact le_of_lt hbe
      · rw [if_neg hbe]
    · intro x hx
      rcases List.mem_cons.mp hx with rfl | hx
      · refine le_trans ?_ h1
        by_cases hbe : b.total_score < x.total_score
        · rw [if_pos hbe]
        · rw [if_neg hbe]; exact le_of_not_lt hbe
      · exact h2 x hx

/-- Counterexample for C5: for a path that does not exist,
`extract_with_page_detection` raises `FileNotFoundError` (line 109) instead of
returning a quadruple. -/
theorem c5_page_detection_raises_on_missing_file :
    extract_with_page_detection c5_missing_env = Except.error PyErr.fileNotFound ∧
    extract_with_page_detection c5_missing_env ≠ Except.ok ("", 0, 1, 3) :=
  ⟨rfl, fun h => Except.noConfusion h⟩

/-- Claim C5 (amended): for an existing path the operation never raises; it
scans only the first `min(3, total_pages)` pages, scores each kept page as
`0.3 * extraction_confidence + 0.7 * relevance_score`, returns the (first)
page attaining the highest combined score with its 1-based number and the
total page count, and returns `("", 0.0, 1, total_pages)` when no scanned
page yields text; a non-existent path instead raises `FileNotFoundError`. -/
theorem c5_page_detection_amended (env : PageEnv) (hex : env.path_exists = true) :
    (∃ out, extract_with_page_detection env = Except.ok out) ∧
    (∀ s ∈ page_scores env,
        s.financial_score = score_page_for_financial_content s.text ∧
        s.total_score = s.confidence * (3 / 10) + s.financial_score * (7 / 10) ∧
        1 ≤ s.page ∧ s.page ≤ min 3 (get_page_count env) ∧
        (env.page_text (s.page - 1)).1 = s.text ∧
        (env.page_text (s.page - 1)).2 = s.confidence) ∧
    (page_scores env = [] →
      extract_with_page_detection env = Except.ok ("", 0, 1, get_page_count env)) ∧
    (∀ s rest, page_scores env = s :: rest →
      ∃ best, best ∈ page_scores env ∧
        extract_with_page_detection env =
          Except.ok (best.text, best.confidence, best.page, get_page_count env) ∧
        ∀ x ∈ page_scores env, x.total_score ≤ best.total_score) := by
  refine ⟨?_, ?_, ?_, ?_⟩
  · rcases hps : page_scores env with _ | ⟨s, rest⟩
    · exact ⟨("", 0, 1, get_page_count env),
        by simp [extract_with_page_detection, hex, hps]⟩
    · exact ⟨((pick_best s rest).text, (pick_best s rest).confidence,
          (pick_best s rest).page, get_page_count env),
        by simp [extract_with_page_detection, hex, hps]⟩
  · intro s hs
    simp only [page_scores, List.mem_filterMap, List.mem_range] at hs
    obtain ⟨i, hi, hs⟩ := hs
    split at hs
    · rcases Option.some.inj hs with rfl
      refine ⟨rfl, rfl, Nat.le_add_left 1 i, by dsimp only; omega, by simp, by simp⟩
    · cases hs
  · intro hempty
    simp [extract_with_page_detection, hex, hempty]
  · intro s rest h
    refine ⟨pick_best s rest, ?_, ?_, ?_⟩
    · rw [h]
      rcases pick_best_mem s rest with hm | hm
      · rw [hm]; exact List.mem_cons_self _ _
      · exact List.mem_cons_of_mem _ hm
    · simp [extract_with_page_detection, hex, h]
    · intro x hx
      rw [h] at hx
      obtain ⟨h1, h2⟩ := pick_best_le s rest
      rcases List.mem_cons.mp hx with rfl | hx
      · exact h1
      · exact h2 x hx

/-- Witness for C5 (amended): an existing 2-page document with no extractable
text returns `("", 0.0, 1, 2)` without raising. -/
theorem c5_page_detection_witness :
    c5_ok_env.path_exists = true ∧
    extract_with_page_detection c5_ok_env = Except.ok ("", 0, 1, 2) :=
  ⟨rfl, (c5_page_detection_amended c5_ok_env rfl).2.2.1 rfl⟩

/-- The length factor lies in `[0, 1]`. -/
theorem length_score_bounds (t : String) : 0 ≤ length_score t ∧ length_score t ≤ 1 :=
  ⟨le_min (div_nonneg (Nat.cast_nonneg _) (by norm_num)) zero_le_one,
   min_le_right _ _⟩

/-- The keyword factor lies in `[0, 1]`. -/
theorem keyword_score_bounds (t : String) : 0 ≤ keyword_score t ∧ keyword_score t ≤ 1 :=
  ⟨le_min (div_nonneg (Nat.cast_nonneg _) (Nat.cast_nonneg _)) zero_le_one,
   min_le_right _ _⟩

/-- The pattern factor lies in `[0, 1]`. -/
theorem pattern_score_bounds (t : String) : 0 ≤ pattern_score t ∧ pattern_score t ≤ 1 :=
  ⟨le_min (div_nonneg (add_nonneg (Nat.cast_nonneg _) (Nat.cast_nonneg _))
      (by norm_num)) zero_le_one,
   min_le_right _ _⟩

/-- The coherence factor lies in `[0, 1]`. -/
theorem coherence_score_bounds (t : String) :
    0 ≤ coherence_score t ∧ coherence_score t ≤ 1 := by
  refine ⟨le_max_left _ _, max_le zero_le_one ?_⟩
  have : (0 : ℚ) ≤ ((t.data.filter isWeird).length : ℚ) / (t.data.length : ℚ) :=
    div_nonneg (Nat.cast_nonneg _) (Nat.cast_nonneg _)
  linarith

/-- The four-factor average lies in `[0, 1]`. -/
theorem text_quality_average_bounds (t : String) :
    0 ≤ text_quality_average t ∧ text_quality_average t ≤ 1 := by
  obtain ⟨l0, l1⟩ := length_score_bounds t
  obtain ⟨k0, k1⟩ := keyword_score_bounds t
  obtain ⟨p0, p1⟩ := pattern_score_bounds t
  obtain ⟨c0, c1⟩ := coherence_score_bounds t
  unfold text_quality_average
  constructor <;> linarith

/-- Every method multiplier is nonnegative. -/
theorem method_multiplier_nonneg (m : String) : 0 ≤ method_multiplier m := by
  unfold method_multiplier
  split_ifs <;> norm_num

/-- Claim C6 (amended): for texts of at least 10 stripped characters the
confidence is the average of the four quality signals (each in `[0, 1]`)
times the method multiplier — which is 1.0 / 0.85 / 0.7, not 1.0 / 0.8 / 0.6
— capped at 1; the whole-document PyPDF2 and OCR extraction paths then apply
the further factors 0.8 and 0.6 on top; the result always lies in `[0, 1]`. -/
theorem c6_text_confidence_amended (text : String)
    (h : ¬(text = "" ∨ (stripChars text.data).length < 10)) :
    (calculate_text_confidence text "pdfplumber" =
        min (text_quality_average text * 1) 1 ∧
      calculate_text_confidence text "pypdf2" =
        min (text_quality_average text * (85 / 100)) 1 ∧
      calculate_text_confidence text "ocr" =
        min (text_quality_average text * (7 / 10)) 1) ∧
    (pypdf2_document_confidence text =
        calculate_text_confidence text "pypdf2" * (8 / 10) ∧
      ocr_document_confidence text =
        calculate_text_confidence text "ocr" * (6 / 10)) ∧
    (0 ≤ length_score text ∧ length_score text ≤ 1 ∧
      0 ≤ keyword_score text ∧ keyword_score text ≤ 1 ∧
      0 ≤ pattern_score text ∧ pattern_score text ≤ 1 ∧
      0 ≤ coherence_score text ∧ coherence_score text ≤ 1) ∧
    (∀ method, 0 ≤ calculate_text_confidence text method ∧
      calculate_text_confidence text method ≤ 1) := by
  obtain ⟨l0, l1⟩ := length_score_bounds text
  obtain ⟨k0, k1⟩ := keyword_score_bounds text
  obtain ⟨p0, p1⟩ := pattern_score_bounds text
  obtain ⟨c0, c1⟩ := coherence_score_bounds text
  refine ⟨⟨?_, ?_, ?_⟩, ⟨rfl, rfl⟩, ⟨l0, l1, k0, k1, p0, p1, c0, c1⟩, ?_⟩
  · rw [calculate_text_confidence, if_neg h]; rfl
  · rw [calculate_text_confidence, if_neg h]; rfl
  · rw [calculate_text_confidence, if_neg h]; rfl
  · intro method
    rw [calculate_text_confidence, if_neg h]
    constructor
    · exact le_min (mul_nonneg (text_quality_average_bounds text).1
        (method_multiplier_nonneg method)) zero_le_one
    · exact min_le_right _ _

/-- Counterexample for C6: on a concrete 32-character text the PyPDF2-tier
document confidence is `avg * 0.85 * 0.8`, not the claimed `avg * 0.8`, and
the OCR tier is `avg * 0.7 * 0.6`, not `avg * 0.6`. -/
theorem c6_multiplier_counterexample :
    pypdf2_document_confidence c6_text ≠ text_quality_average c6_text * (8 / 10) ∧
    ocr_document_confidence c6_text ≠ text_quality_average c6_text * (6 / 10) := by
  have h32 : c6_text.data.length = 32 := by decide
  have hl : length_score c6_text = 4 / 125 := by
    rw [length_score, h32]; norm_num
  have hk : keyword_score c6_text = 0 := by
    have h0 : (confidence_keywords.filter
        (fun k => subIn (lowerData k) (lowerData c6_text))).length = 0 := by decide
    rw [keyword_score, h0]; norm_num
  have hp : pattern_score c6_text = 0 := by
    have h1 : (currency_matches false c6_text).length = 0 := by decide
    have h2 : date_match_count c6_text = 0 := by decide
    rw [pattern_score, h1, h2]; norm_num
  have hc : coherence_score c6_text = 1 := by
    have h0 : (c6_text.data.filter isWeird).length = 0 := by decide
    rw [coherence_score, h0, h32]; norm_num
  have havg : text_quality_average c6_text = 129 / 500 := by
    rw [text_quality_average, hl, hk, hp, hc]; norm_num
  have hguard : ¬(c6_text = "" ∨ (stripChars c6_text.data).length < 10) := by decide
  have hm1 : method_multiplier "pypdf2" = 85 / 100 := rfl
  have hm2 : method_multiplier "ocr" = 7 / 10 := rfl
  constructor
  · rw [pypdf2_document_confidence, calculate_text_confidence, if_neg hguard,
      havg, hm1]
    rw [min_eq_left (by norm_num)]
    norm_num
  · rw [ocr_document_confidence, calculate_text_confidence, if_neg hguard,
      havg, hm2]
    rw [min_eq_left (by norm_num)]
    norm_num

/-- Witness for C6 (amended): the concrete 32-character text satisfies the
length guard and gets the 0.85-multiplier confidence on the PyPDF2 tier. -/
theorem c6_text_confidence_witness :
    ¬(c6_text = "" ∨ (stripChars c6_text.data).length < 10) ∧
    calculate_text_confidence c6_text "pypdf2" =
      min (text_quality_average c6_text * (85 / 100)) 1 := by
  have hguard : ¬(c6_text = "" ∨ (stripChars c6_text.data).length < 10) := by decide
  exact ⟨hguard, (c6_text_confidence_amended c6_text hguard).1.2.1⟩

/-- Source `_calculate_confidence` never reads the `confidence_score` field of its
argument. -/
theorem calculate_confidence_ignores_confidence (d : StatementData) (x : ℚ)
    (t : String) :
    calculate_confidence { d with confidence_score := x } t =
      calculate_confidence d t := rfl

/-- Every key of the extractor table is a nonempty string other than
`"unknown"`. -/
theorem extractor_key_truthy {s : String} (h : s ∈ extractor_keys) :
    stringTruthy (some s) = true ∧ (some s : Option String) ≠ some "unknown" := by
  simp only [extractor_keys, List.mem_cons, List.not_mem_nil, or_false] at h
  rcases h with rfl | rfl | rfl | rfl | rfl | rfl <;> exact ⟨by decide, by decide⟩

/-- Claim C3 (amended): when the detected institution is one of the six known
extractor keys, the parser output has `confidence_score` equal to the
arithmetic mean of the five factors computed by `_calculate_confidence`, with
the institution factor pinned to 0.8; for an unknown institution,
`parse_statement` instead assigns `confidence_score = 0.1` directly (line
74), refuted separately. -/
theorem c3_confidence_amended (extract : String → String → StatementData)
    (text : String) :
    (detect_institution (clean_text text) ∈ extractor_keys →
      (parse_statement extract text).confidence_score =
        ((8 / 10 : ℚ) +
         (if decimalTruthy (parse_statement extract text).beginning_balance = true ∧
             decimalTruthy (parse_statement extract text).ending_balance = true then 9 / 10
          else if decimalTruthy (parse_statement extract text).ending_balance = true then 7 / 10
          else 3 / 10) +
         (if dateTruthy (parse_statement extract text).statement_period_start = true ∧
             dateTruthy (parse_statement extract text).statement_period_end = true then 9 / 10
          else if dateTruthy (parse_statement extract text).statement_period_end = true then 7 / 10
          else 4 / 10) +
         (if stringTruthy (parse_statement extract text).account_type = true then 8 / 10
          else 5 / 10) +
         (if 3 ≤ (parse_statement extract text).extraction_notes.length then 9 / 10
          else if 2 ≤ (parse_statement extract text).extraction_notes.length then 8 / 10
          else if 1 ≤ (parse_statement extract text).extraction_notes.length then 6 / 10
          else 3 / 10)) / 5 ∧
      (parse_statement extract text).confidence_score =
        calculate_confidence (parse_statement extract text) (clean_text text)) ∧
    (detect_institution (clean_text text) ∉ extractor_keys →
      (parse_statement extract text).confidence_score = 1 / 10) := by
  constructor
  · intro hmem
    obtain ⟨ht, hu⟩ := extractor_key_truthy hmem
    constructor
    · simp only [parse_statement, if_neg (not_not_intro hmem)]
      rw [calculate_confidence, if_pos ⟨ht, hu⟩]
    · simp only [parse_statement, if_neg (not_not_intro hmem)]
      rfl
  · intro hmem
    simp only [parse_statement, if_pos hmem]

/-- Counterexample for C3: on empty input the institution is unknown, the
parser sets `confidence_score = 0.1` directly, and the five-factor mean of
the returned record is `0.4`, so the invariant fails. -/
theorem c3_unknown_sets_confidence_directly :
    (parse_statement (fun _ _ => {}) "").confidence_score = 1 / 10 ∧
    calculate_confidence (parse_statement (fun _ _ => {}) "") "" = 2 / 5 ∧
    (1 : ℚ) / 10 ≠ 2 / 5 := by
  have hres : parse_statement (fun _ _ => {}) "" =
      { institution := some "unknown", confidence_score := 1 / 10,
        extraction_notes := ["Unknown institution: unknown"] } := by rfl
  refine ⟨by rw [hres], ?_, by norm_num⟩
  rw [hres, calculate_confidence]
  norm_num [stringTruthy, decimalTruthy, dateTruthy]

/-- Witness for C3 (amended): a Wells Fargo marker text detects a known
institution, and the parser confidence equals the five-factor calculation. -/
theorem c3_confidence_witness :
    detect_institution (clean_text "wellsfargo.com") ∈ extractor_keys ∧
    (parse_statement (fun _ _ => {}) "wellsfargo.com").confidence_score =
      calculate_confidence (parse_statement (fun _ _ => {}) "wellsfargo.com")
        (clean_text "wellsfargo.com") := by
  have hmem : detect_institution (clean_text "wellsfargo.com") ∈ extractor_keys := by
    decide
  exact ⟨hmem, ((c3_confidence_amended (fun _ _ => {}) "wellsfargo.com").1 hmem).2⟩

end PF
